import Mathlib

/-!
Verification of the client-side shopping cart and checkout orchestration
subsystem of the Accurify QuickStore storefront.

The definitions below are a shallow embedding of the TypeScript source:

* `CartContext` (the cart store): `addToCart`, `removeFromCart`,
  `updateQuantity`, `clearCart`, `getCartItemCount`, the per-store
  storage key, the localStorage initialization path and the
  `useEffect`-driven persistence.
* `PublicStorefrontPage`: the pricing computations (`cartSubtotal`,
  `cartVat`, `cartTotal`), the checkout submission handler
  (`handlePlaceOrder`), the payment-callback effect and the
  checkout modal's primary-button `disabled` predicate.

JavaScript numbers are modelled as rationals (`ℚ`) for prices and VAT
rates and as integers (`ℤ`) for quantities; all arithmetic appearing in
the source is exact on these inputs.  External collaborators
(`localStorage`, `JSON.parse`, `JSON.stringify`, the commerce API) are
modelled at their interface boundary: API calls by their observable
result (a response object or a thrown error), storage by a partial map
from keys to strings.
-/

/-- Product snapshot carried by a cart line item; only the fields the cart
and pricing code reads are modelled (`product.types.ts`). -/
structure Product where
  id : String
  name : String
  unitPrice : ℚ
  taxable : Bool
  vatRate : ℚ
deriving DecidableEq, Repr

/-- Embeds `CartItem` from `public-store.api.ts`: `productId`, a product snapshot
taken at add time, and a quantity. -/
structure CartItem where
  productId : String
  product : Product
  quantity : ℤ
deriving DecidableEq, Repr

/-- Embeds `addToCart` from `CartContext`: if an item with the same `productId`
exists, every matching entry gets its quantity incremented by
`item.quantity` (the snapshot is kept via object spread); otherwise the
item is appended. -/
def addToCart (prev : List CartItem) (item : CartItem) : List CartItem :=
  if (prev.find? fun i => i.productId == item.productId).isSome then
    prev.map fun i =>
      if i.productId == item.productId then
        { i with quantity := i.quantity + item.quantity }
      else i
  else
    prev ++ [item]

/-- Embeds `removeFromCart` from `CartContext`: keep the entries whose
`productId` differs. -/
def removeFromCart (prev : List CartItem) (productId : String) : List CartItem :=
  prev.filter fun item => item.productId != productId

/-- Embeds `updateQuantity` from `CartContext`: a non-positive quantity removes
the item, otherwise the stored quantity is overwritten. -/
def updateQuantity (prev : List CartItem) (productId : String) (quantity : ℤ) :
    List CartItem :=
  if quantity ≤ 0 then
    removeFromCart prev productId
  else
    prev.map fun item =>
      if item.productId == productId then { item with quantity := quantity } else item

/-- Embeds `clearCart` from `CartContext`. -/
def clearCart (_prev : List CartItem) : List CartItem := []

/-- Embeds `getCartItemCount` from `CartContext`: sum of all quantities. -/
def getCartItemCount (cart : List CartItem) : ℤ :=
  cart.foldl (fun sum item => sum + item.quantity) 0

/-- The per-store localStorage key from `CartProvider`:
`` storeSlug ? `cart_${storeSlug}` : 'cart' `` — an absent or empty
(falsy) slug falls back to the fixed key `cart`. -/
def storageKey (storeSlug : Option String) : String :=
  match storeSlug with
  | some s => if s = "" then "cart" else "cart_" ++ s
  | none => "cart"

/-- Models `JSON.stringify` on a product snapshot (the fields modelled
here). -/
def serializeProduct (p : Product) : String :=
  "\x7b\"id\":\"" ++ p.id ++ "\",\"name\":\"" ++ p.name ++
    "\",\"unitPrice\":" ++ toString p.unitPrice ++
    ",\"taxable\":" ++ (if p.taxable then "true" else "false") ++
    ",\"vatRate\":" ++ toString p.vatRate ++ "\x7d"

/-- Models `JSON.stringify` on one cart line item. -/
def serializeItem (i : CartItem) : String :=
  "\x7b\"productId\":\"" ++ i.productId ++ "\",\"product\":" ++
    serializeProduct i.product ++ ",\"quantity\":" ++ toString i.quantity ++ "\x7d"

/-- Models `JSON.stringify` on the whole cart array, as passed to
`localStorage.setItem` by the persistence effect in `CartProvider`. -/
def serializeCart (cart : List CartItem) : String :=
  "[" ++ String.intercalate "," (cart.map serializeItem) ++ "]"

/-- One cart mutation as exposed by the `CartContext` value. -/
inductive CartMutation where
  | add (item : CartItem)
  | remove (productId : String)
  | update (productId : String) (quantity : ℤ)
  | clear
deriving Repr

/-- Dispatch a mutation to the corresponding cart-store operation. -/
def applyMutation (m : CartMutation) (cart : List CartItem) : List CartItem :=
  match m with
  | .add item => addToCart cart item
  | .remove pid => removeFromCart cart pid
  | .update pid q => updateQuantity cart pid q
  | .clear => clearCart cart

/-- State of `CartProvider` together with the browser's localStorage
(modelled as a partial map from keys to strings) and the flag recording
that React has a persistence effect scheduled but not yet run. -/
structure ProviderState where
  cart : List CartItem
  storage : String → Option String
  effectPending : Bool

/-- A mutation in `CartProvider` only calls `setCart`: the React state is
updated and the `useEffect [cart, storageKey]` persistence effect becomes
pending; localStorage itself is untouched at this point. -/
def mutate (st : ProviderState) (m : CartMutation) : ProviderState :=
  { st with cart := applyMutation m st.cart, effectPending := true }

/-- React running the pending `useEffect` of `CartProvider` after the
commit: `localStorage.setItem(storageKey, JSON.stringify(cart))`. -/
def flushPersistEffect (key : String) (st : ProviderState) : ProviderState :=
  if st.effectPending then
    { st with
      storage := fun k => if k = key then some (serializeCart st.cart) else st.storage k,
      effectPending := false }
  else st

/-- Untyped JSON values, as produced by `JSON.parse`. -/
inductive Json where
  | null
  | bool (b : Bool)
  | num (q : ℚ)
  | str (s : String)
  | arr (elems : List Json)
  | obj (fields : List (String × Json))

/-- Result of calling `localStorage.getItem(storageKey)`: the call may
throw (storage access failure), find nothing, or return a string. -/
inductive StorageRead where
  | failure
  | missing
  | value (s : String)

/-- Result of calling `JSON.parse` on a string: either an exception or a
JSON value. -/
inductive ParseOutcome where
  | thrown
  | parsed (j : Json)

/-- The `useState` initializer of `CartProvider`:
`try { const stored = localStorage.getItem(storageKey); return stored ?
JSON.parse(stored) : []; } catch { return []; }`.  The empty string is
falsy in JavaScript, hence also yields `[]`.  `parse` models
`JSON.parse`. -/
def cartInit (read : StorageRead) (parse : String → ParseOutcome) : Json :=
  match read with
  | .failure => .arr []
  | .missing => .arr []
  | .value s =>
    if s = "" then .arr []
    else
      match parse s with
      | .thrown => .arr []
      | .parsed j => j

/-- Models the result of ECMAScript `JSON.parse` on the concrete strings
this development evaluates it on: the literal `null` parses to the JSON
null value, `[]` to the empty array; everything else is treated as
throwing. -/
def jsonParseOnLiterals (s : String) : ParseOutcome :=
  if s = "null" then .parsed .null
  else if s = "[]" then .parsed (.arr [])
  else .thrown

/-- Embeds `cartSubtotal` from `PublicStorefrontPage`:
`cart.reduce((sum, item) => sum + item.product.unitPrice * 100 *
item.quantity, 0)` — minor units (kobo). -/
def cartSubtotal (cart : List CartItem) : ℚ :=
  cart.foldl (fun sum item => sum + item.product.unitPrice * 100 * item.quantity) 0

/-- Embeds `cartVat` from `PublicStorefrontPage`: taxable lines with a positive
VAT rate contribute `unitPrice * 100 * quantity * vatRate / 100`;
everything else contributes nothing. -/
def cartVat (cart : List CartItem) : ℚ :=
  cart.foldl
    (fun sum item =>
      if item.product.taxable ∧ 0 < item.product.vatRate then
        sum + item.product.unitPrice * 100 * item.quantity * item.product.vatRate / 100
      else sum)
    0

/-- Embeds `cartTotal` from `PublicStorefrontPage`. -/
def cartTotal (cart : List CartItem) : ℚ :=
  cartSubtotal cart + cartVat cart

/-- The checkout steps of `PublicStorefrontPage` (`CheckoutStep`). -/
inductive CheckoutStep where
  | cart
  | details
  | payment
  | confirmation
deriving DecidableEq, Repr

/-- Embeds `PaymentMethod` from `PublicStorefrontPage`. -/
inductive PaymentMethod where
  | ONLINE
  | BANK_TRANSFER
  | CASH
deriving DecidableEq, Repr

/-- The `ApiResponse` envelope of the commerce API (`api.types.ts`):
a success flag and optional payload. -/
structure ApiResponse (α : Type) where
  success : Bool
  data : Option α
deriving Repr

/-- Observable result of an awaited API call inside `handlePlaceOrder`:
either a returned response object, or a thrown error (which the
surrounding `try`/`catch` intercepts). -/
inductive CallResult (α : Type) where
  | ok (res : ApiResponse α)
  | thrown
deriving Repr

/-- The part of `StoreOrder` the checkout flow reads. -/
structure OrderData where
  orderNumber : String
deriving DecidableEq, Repr

/-- The part of `PaymentInitResponse` the checkout flow reads. -/
structure PaymentData where
  authorizationUrl : String
deriving DecidableEq, Repr

/-- The component state touched by `handlePlaceOrder`. -/
structure CheckoutState where
  cart : List CartItem
  checkoutStep : CheckoutStep
  orderNumber : Option String
  submitting : Bool
deriving DecidableEq, Repr

/-- Result of one run of `handlePlaceOrder`: the component state after
the handler finishes, and the authorization URL assigned to
`window.location.href` when a redirect happened. -/
structure PlaceOrderOutcome where
  state : CheckoutState
  redirect : Option String
deriving DecidableEq, Repr

/-- The `setCheckoutStep('confirmation'); clearCart()` tail of
`handlePlaceOrder`, followed by the `finally` clearing `submitting`. -/
def confirmAndClear (st : CheckoutState) : PlaceOrderOutcome :=
  { state := { st with checkoutStep := .confirmation, cart := [], submitting := false },
    redirect := none }

/-- Embeds `handlePlaceOrder` from `PublicStorefrontPage`, as a function of the
state it reads, the validated form's email, the selected payment method
and the observable results of the two API calls.

Mirrors the source: early return when slug or store is missing;
`setSubmitting(true)`; await `placeOrder`; on `success && data` record
the order number, then — only for `ONLINE` with a truthy email — await
payment initialization and redirect on `success && data`; otherwise move
to `confirmation` and clear the cart.  A thrown call lands in the
`catch`; the `finally` clears `submitting` on every path that entered
the `try`. -/
def handlePlaceOrder (hasSlugAndStore : Bool) (st : CheckoutState)
    (selectedPaymentMethod : Option PaymentMethod) (email : String)
    (orderCall : CallResult OrderData) (paymentCall : CallResult PaymentData) :
    PlaceOrderOutcome :=
  if !hasSlugAndStore then
    { state := st, redirect := none }
  else
    match orderCall with
    | .thrown => { state := { st with submitting := false }, redirect := none }
    | .ok orderRes =>
      match orderRes.data, orderRes.success with
      | some d, true =>
        let st1 := { st with orderNumber := some d.orderNumber }
        if selectedPaymentMethod = some .ONLINE ∧ email ≠ "" then
          match paymentCall with
          | .thrown => { state := { st1 with submitting := false }, redirect := none }
          | .ok paymentRes =>
            match paymentRes.data, paymentRes.success with
            | some p, true =>
              { state := { st1 with submitting := false },
                redirect := some p.authorizationUrl }
            | _, _ => confirmAndClear st1
        else
          confirmAndClear st1
      | _, _ => { state := { st with submitting := false }, redirect := none }

/-- One verification request issued to
`publicStoreApi.verifyPayment(slug, orderNum, reference)`. -/
structure VerifyCall where
  slug : String
  orderNumber : String
  reference : String
deriving DecidableEq, Repr

/-- One run of the payment-callback `useEffect` in
`PublicStorefrontPage`: it reads `reference` and `order` from the URL
search parameters and, when both are truthy and a slug is bound, issues
a `verifyPayment` call.  The component keeps no record of pairs already
processed. -/
def paymentCallbackEffect (searchParams : String → Option String)
    (slug : Option String) : List VerifyCall :=
  match searchParams "reference", searchParams "order", slug with
  | some ref, some ord, some s =>
    if ref ≠ "" ∧ ord ≠ "" ∧ s ≠ "" then [⟨s, ord, ref⟩] else []
  | _, _, _ => []

/-- The verification calls issued by `n` successive runs of the
payment-callback effect (page reloads or StrictMode re-invocations) with
the same URL parameters and slug. -/
def paymentCallbackRuns (n : ℕ) (searchParams : String → Option String)
    (slug : Option String) : List VerifyCall :=
  match n with
  | 0 => []
  | k + 1 => paymentCallbackEffect searchParams slug ++ paymentCallbackRuns k searchParams slug

/-- The URL search parameters of Scenario E:
`?reference=ref_123&order=ORD-1`. -/
def callbackParams : String → Option String := fun k =>
  if k = "reference" then some "ref_123"
  else if k = "order" then some "ORD-1"
  else none

/-- The checkout modal's `primaryButtonDisabled` expression in
`PublicStorefrontPage`:
`(checkoutStep === 'cart' && cart.length === 0) || (checkoutStep ===
'details' && !selectedPaymentMethod) || submitting`. -/
def primaryButtonDisabled (checkoutStep : CheckoutStep) (cartLength : ℕ)
    (selectedPaymentMethod : Option PaymentMethod) (submitting : Bool) : Bool :=
  (checkoutStep == .cart && cartLength == 0) ||
    (checkoutStep == .details && selectedPaymentMethod.isNone) ||
    submitting

/-- The `name` rule of `checkoutSchema`:
`z.string().min(2, ...)` — at least two characters. -/
def nameValid (name : String) : Bool :=
  2 ≤ name.length

/-- The cleaning step of the `phone` rule of `checkoutSchema`:
`val.replace(/[\s()-]/g, '')`. -/
def cleanPhone (val : String) : String :=
  String.mk (val.data.filter fun c => ¬ (c = ' ' ∨ c = '(' ∨ c = ')' ∨ c = '-'))

/-- The `phone` rule of `checkoutSchema`: non-empty, and after cleaning
matches `/^0\d{10}$/` or `/^\+234\d{10}$/`. -/
def phoneValid (val : String) : Bool :=
  let cleaned := cleanPhone val
  val ≠ "" &&
    ((cleaned.length = 11 && cleaned.data.headI = '0' && cleaned.data.all Char.isDigit) ||
      (cleaned.startsWith "+234" && cleaned.length = 14 &&
        (cleaned.data.drop 4).all Char.isDigit))

section Theorems

/-- A left fold accumulating `f` over a list is the sum of the mapped
list. -/
theorem foldl_add_eq_sum (f : CartItem → ℚ) (l : List CartItem) (a : ℚ) :
    l.foldl (fun sum i => sum + f i) a = a + (l.map f).sum := by
  induction l generalizing a with
  | nil => simp
  | cons x xs ih => simp [ih, add_assoc]

/-- Item X of property P6: price 1000, taxable at 7.5 %, added with
quantity 2. -/
def itemX : CartItem :=
  ⟨"prod-x", ⟨"prod-x", "Item X", 1000, true, 15 / 2⟩, 2⟩

/-- Item Y of property P6: price 500, non-taxable, added with
quantity 3. -/
def itemY : CartItem :=
  ⟨"prod-y", ⟨"prod-y", "Item Y", 500, false, 0⟩, 3⟩

/-- The two-item cart of property P6. -/
def exampleCart : List CartItem := [itemX, itemY]

/-- C3: the subtotal is the sum over line items of unit price in minor
units times quantity; the VAT is the sum over taxable, positive-rate
line items of line subtotal times rate over 100, with all other items
contributing zero; the total is subtotal plus VAT; and on the P6 cart
the major-unit values are 3500, 150 and 3650. -/
theorem pricing_engine_correct (cart : List CartItem) :
    cartSubtotal cart
        = (cart.map fun i => i.product.unitPrice * 100 * (i.quantity : ℚ)).sum
    ∧ cartVat cart =
        (cart.map fun i =>
          if i.product.taxable ∧ 0 < i.product.vatRate then
            i.product.unitPrice * 100 * (i.quantity : ℚ) * i.product.vatRate / 100
          else 0).sum
    ∧ cartTotal cart = cartSubtotal cart + cartVat cart
    ∧ cartSubtotal exampleCart / 100 = 3500
    ∧ cartVat exampleCart / 100 = 150
    ∧ cartTotal exampleCart / 100 = 3650 := by
  have hconc : cartSubtotal exampleCart = 350000 ∧ cartVat exampleCart = 15000 := by
    constructor <;>
      norm_num [cartSubtotal, cartVat, cartTotal, exampleCart, itemX, itemY]
  refine ⟨?_, ?_, rfl, ?_, ?_, ?_⟩
  · unfold cartSubtotal
    simpa using foldl_add_eq_sum (fun i => i.product.unitPrice * 100 * (i.quantity : ℚ)) cart 0
  · have hfun :
        (fun (sum : ℚ) (item : CartItem) =>
          if item.product.taxable ∧ 0 < item.product.vatRate then
            sum + item.product.unitPrice * 100 * item.quantity * item.product.vatRate / 100
          else sum)
        = fun (sum : ℚ) (item : CartItem) =>
            sum +
              (if item.product.taxable ∧ 0 < item.product.vatRate then
                item.product.unitPrice * 100 * (item.quantity : ℚ) * item.product.vatRate / 100
              else 0) := by
      funext sum item
      by_cases h : item.product.taxable ∧ 0 < item.product.vatRate <;> simp [h]
    unfold cartVat
    rw [hfun]
    simpa using
      foldl_add_eq_sum
        (fun i =>
          if i.product.taxable ∧ 0 < i.product.vatRate then
            i.product.unitPrice * 100 * (i.quantity : ℚ) * i.product.vatRate / 100
          else 0)
        cart 0
  · rw [hconc.1]; norm_num
  · rw [hconc.2]; norm_num
  · unfold cartTotal
    rw [hconc.1, hconc.2]; norm_num

/-- C6: adding a product already in the cart merges into the existing
line item — the length is unchanged — while adding an absent product
appends it; in particular adding the same `productId` twice with
quantities `q1` and `q2` to a cart not containing it yields exactly one
line item for it, carrying quantity `q1 + q2`. -/
theorem addToCart_idempotent_merge (cart : List CartItem) (item item2 : CartItem)
    (hpid : item2.productId = item.productId)
    (habsent : (cart.find? fun i => i.productId == item.productId) = none) :
    (∀ c : List CartItem,
        (c.find? fun i => i.productId == item.productId).isSome = true →
          (addToCart c item).length = c.length)
    ∧ addToCart cart item = cart ++ [item]
    ∧ (addToCart (addToCart cart item) item2).length = cart.length + 1
    ∧ (addToCart (addToCart cart item) item2).filter
          (fun i => i.productId == item.productId)
        = [{ item with quantity := item.quantity + item2.quantity }] := by
  have hnot : ∀ i ∈ cart, (i.productId == item.productId) = false := by
    intro i hi
    simpa using List.find?_eq_none.mp habsent i hi
  have h2 : addToCart cart item = cart ++ [item] := by
    simp [addToCart, habsent]
  have hfind2 :
      ((cart ++ [item]).find? fun i => i.productId == item2.productId).isSome = true := by
    rw [List.find?_append]
    have hfl : (cart.find? fun i => i.productId == item2.productId) = none := by
      rw [List.find?_eq_none]
      intro x hx
      rw [hpid]
      simp [hnot x hx]
    rw [hfl]
    simp [hpid]
  have h3 : addToCart (cart ++ [item]) item2
      = cart ++ [{ item with quantity := item.quantity + item2.quantity }] := by
    simp only [addToCart, hfind2, if_true, List.map_append]
    congr 1
    · conv_rhs => rw [← List.map_id cart]
      apply List.map_congr_left
      intro a ha
      rw [hpid]
      simp [hnot a ha]
    · rw [hpid]
      simp
  refine ⟨?_, h2, ?_, ?_⟩
  · intro c hc
    simp [addToCart, hc]
  · rw [h2, h3]
    simp
  · rw [h2, h3, List.filter_append]
    have hcartnil : cart.filter (fun i => i.productId == item.productId) = [] := by
      rw [List.filter_eq_nil_iff]
      intro a ha
      simp [hnot a ha]
    rw [hcartnil]
    simp

/-- The product snapshot recorded when `prod-1` was first added. -/
def snapItemOld : CartItem := ⟨"prod-1", ⟨"prod-1", "Test Product", 1000, true, 15 / 2⟩, 1⟩

/-- A later add of `prod-1` carrying a changed snapshot (price 2000). -/
def snapItemNew : CartItem := ⟨"prod-1", ⟨"prod-1", "Test Product", 2000, true, 15 / 2⟩, 2⟩

/-- C10: when the product is already in the cart, `addToCart` updates
only the quantity — every line item keeps its `productId` and its stored
product snapshot, so a changed price in the incoming snapshot never
alters the recorded one. -/
theorem addToCart_preserves_snapshot (cart : List CartItem) (item : CartItem)
    (hpresent : (cart.find? fun i => i.productId == item.productId).isSome = true) :
    (addToCart cart item).map (fun i => (i.productId, i.product))
      = cart.map fun i => (i.productId, i.product) := by
  simp only [addToCart, hpresent, if_true, List.map_map]
  apply List.map_congr_left
  intro a _
  by_cases h : a.productId = item.productId <;> simp [h]

/-- Witness for C10 at a concrete cart: re-adding `prod-1` with a price
changed to 2000 leaves the stored pair `(productId, snapshot)`
untouched. -/
theorem addToCart_preserves_snapshot_witness :
    (([snapItemOld] : List CartItem).find?
        (fun i => i.productId == snapItemNew.productId)).isSome = true
    ∧ (addToCart [snapItemOld] snapItemNew).map (fun i => (i.productId, i.product))
      = [snapItemOld].map (fun i => (i.productId, i.product)) :=
  ⟨by decide, addToCart_preserves_snapshot [snapItemOld] snapItemNew (by decide)⟩

/-- Witness for C6 at a concrete cart: adding `prod-1` with quantity 1
and then quantity 2 to an empty cart yields a single `prod-1` line item
with quantity 3. -/
theorem addToCart_idempotent_merge_witness :
    snapItemNew.productId = snapItemOld.productId
    ∧ (([] : List CartItem).find? fun i => i.productId == snapItemOld.productId) = none
    ∧ (addToCart (addToCart [] snapItemOld) snapItemNew).filter
          (fun i => i.productId == snapItemOld.productId)
        = [{ snapItemOld with quantity := snapItemOld.quantity + snapItemNew.quantity }] :=
  ⟨rfl, rfl,
    (addToCart_idempotent_merge [] snapItemOld snapItemNew rfl rfl).2.2.2⟩

/-- An `addToCart` request carrying quantity 0. -/
def itemZeroQty : CartItem := ⟨"p-zero", ⟨"p-zero", "Zero", 250, false, 0⟩, 0⟩

/-- Counterexample to C7 as stated: `addToCart` performs no quantity
check, so adding an absent product with quantity 0 leaves a visible
line item whose quantity is not ≥ 1. -/
theorem addToCart_nonpositive_quantity_cex :
    addToCart [] itemZeroQty = [itemZeroQty]
    ∧ ¬ (∀ i ∈ addToCart [] itemZeroQty, 1 ≤ i.quantity) := by
  constructor
  · rfl
  · intro h
    have h0 := h itemZeroQty (by rw [show addToCart [] itemZeroQty = [itemZeroQty] from rfl]; simp)
    simp [itemZeroQty] at h0

/-- C7 as amended: `removeFromCart`, `updateQuantity` and `clearCart`
preserve the quantity ≥ 1 invariant unconditionally (in particular
`updateQuantity` with a non-positive quantity removes the item), and
`addToCart` preserves it provided the requested quantity is ≥ 1;
`addToCart` itself performs no quantity check. -/
theorem cart_ops_preserve_positive_quantity (cart : List CartItem)
    (hinv : ∀ i ∈ cart, 1 ≤ i.quantity) :
    (∀ item : CartItem, 1 ≤ item.quantity →
        ∀ i ∈ addToCart cart item, 1 ≤ i.quantity)
    ∧ (∀ pid : String, ∀ i ∈ removeFromCart cart pid, 1 ≤ i.quantity)
    ∧ (∀ pid : String, ∀ q : ℤ, ∀ i ∈ updateQuantity cart pid q, 1 ≤ i.quantity)
    ∧ (∀ i ∈ clearCart cart, 1 ≤ i.quantity) := by
  have hremove : ∀ pid : String, ∀ i ∈ removeFromCart cart pid, 1 ≤ i.quantity := by
    intro pid i hi
    exact hinv i (List.mem_of_mem_filter hi)
  refine ⟨?_, hremove, ?_, ?_⟩
  · intro item hq i hi
    unfold addToCart at hi
    by_cases hfind : ((cart.find? fun j => j.productId == item.productId).isSome : Bool)
    · rw [if_pos hfind] at hi
      obtain ⟨j, hj, rfl⟩ := List.mem_map.mp hi
      by_cases hmatch : (j.productId == item.productId) = true
      · rw [if_pos hmatch]
        have := hinv j hj
        simp only
        omega
      · rw [if_neg hmatch]
        exact hinv j hj
    · rw [if_neg hfind] at hi
      rcases List.mem_append.mp hi with hin | hone
      · exact hinv i hin
      · rw [List.mem_singleton.mp hone]
        exact hq
  · intro pid q i hi
    unfold updateQuantity at hi
    by_cases hq : q ≤ 0
    · rw [if_pos hq] at hi
      exact hremove pid i hi
    · rw [if_neg hq] at hi
      obtain ⟨j, hj, rfl⟩ := List.mem_map.mp hi
      by_cases hmatch : (j.productId == pid) = true
      · rw [if_pos hmatch]
        simp only
        omega
      · rw [if_neg hmatch]
        exact hinv j hj
  · intro i hi
    simp [clearCart] at hi

/-- A well-formed line item with quantity 1, to witness the amended C7. -/
def itemOneQty : CartItem := ⟨"p-one", ⟨"p-one", "One", 250, false, 0⟩, 1⟩

/-- Witness for the amended C7 on the empty cart and a quantity-1 add. -/
theorem cart_ops_preserve_positive_quantity_witness :
    (∀ i ∈ ([] : List CartItem), 1 ≤ i.quantity)
    ∧ 1 ≤ itemOneQty.quantity
    ∧ (∀ i ∈ addToCart [] itemOneQty, 1 ≤ i.quantity) :=
  ⟨by simp, by decide,
    (cart_ops_preserve_positive_quantity [] (by simp)).1 itemOneQty (by decide)⟩

/-- C1: when order creation succeeds with data — for `ONLINE` payment
with a non-empty email whose initialization succeeds with data, the
browser is redirected to the returned authorization URL and the cart is
not cleared (the step is also untouched); for `CASH`, `BANK_TRANSFER`,
or an online initialization whose response lacks success or data, the
cart is cleared and the step becomes `confirmation` with no redirect. -/
theorem handlePlaceOrder_success_paths (st : CheckoutState)
    (pm : Option PaymentMethod) (email : String)
    (orderRes : ApiResponse OrderData) (d : OrderData)
    (paymentCall : CallResult PaymentData)
    (hsucc : orderRes.success = true) (hdata : orderRes.data = some d) :
    (∀ (paymentRes : ApiResponse PaymentData) (p : PaymentData),
        pm = some .ONLINE → email ≠ "" → paymentCall = .ok paymentRes →
        paymentRes.success = true → paymentRes.data = some p →
          (handlePlaceOrder true st pm email (.ok orderRes) paymentCall).redirect
              = some p.authorizationUrl
          ∧ (handlePlaceOrder true st pm email (.ok orderRes) paymentCall).state.cart
              = st.cart
          ∧ (handlePlaceOrder true st pm email (.ok orderRes) paymentCall).state.checkoutStep
              = st.checkoutStep)
    ∧ (∀ paymentRes : ApiResponse PaymentData,
        (pm = some .CASH ∨ pm = some .BANK_TRANSFER ∨
          (paymentCall = .ok paymentRes ∧
            ¬ (paymentRes.success = true ∧ paymentRes.data.isSome = true))) →
          (handlePlaceOrder true st pm email (.ok orderRes) paymentCall).state.cart = []
          ∧ (handlePlaceOrder true st pm email (.ok orderRes) paymentCall).state.checkoutStep
              = .confirmation
          ∧ (handlePlaceOrder true st pm email (.ok orderRes) paymentCall).redirect
              = none) := by
  constructor
  · intro paymentRes p h1 h2 h3 h4 h5
    subst h3
    simp only [handlePlaceOrder, hdata, hsucc, h5, h4, Bool.not_true, Bool.false_eq_true,
      if_neg, if_pos (And.intro h1 h2)]
    exact ⟨rfl, rfl, rfl⟩
  · intro paymentRes hcase
    simp only [handlePlaceOrder, hdata, hsucc, Bool.not_true, Bool.false_eq_true, if_neg]
    rcases hcase with hcash | hbank | ⟨hok, hnot⟩
    · subst hcash
      rw [if_neg (by simp)]
      exact ⟨rfl, rfl, rfl⟩
    · subst hbank
      rw [if_neg (by simp)]
      exact ⟨rfl, rfl, rfl⟩
    · subst hok
      by_cases hcond : pm = some PaymentMethod.ONLINE ∧ email ≠ ""
      · rw [if_pos hcond]
        obtain ⟨psucc, pdata⟩ := paymentRes
        cases pdata with
        | some p =>
          cases psucc with
          | true => exact absurd ⟨rfl, rfl⟩ hnot
          | false => exact ⟨rfl, rfl, rfl⟩
        | none =>
          cases psucc with
          | true => exact ⟨rfl, rfl, rfl⟩
          | false => exact ⟨rfl, rfl, rfl⟩
      · rw [if_neg hcond]
        exact ⟨rfl, rfl, rfl⟩

/-- C2: when order creation throws, or returns an unsuccessful response,
or returns no data, the handler leaves the step and the cart exactly as
they were and only clears the `submitting` flag. -/
theorem handlePlaceOrder_failure_leaves_state (st : CheckoutState)
    (pm : Option PaymentMethod) (email : String)
    (paymentCall : CallResult PaymentData) :
    handlePlaceOrder true st pm email .thrown paymentCall
        = { state := { st with submitting := false }, redirect := none }
    ∧ (∀ orderRes : ApiResponse OrderData,
        ¬ (orderRes.success = true ∧ orderRes.data.isSome = true) →
          handlePlaceOrder true st pm email (.ok orderRes) paymentCall
            = { state := { st with submitting := false }, redirect := none }) := by
  constructor
  · rfl
  · intro orderRes hnot
    obtain ⟨osucc, odata⟩ := orderRes
    cases odata with
    | some d =>
      cases osucc with
      | true => exact absurd ⟨rfl, rfl⟩ hnot
      | false => rfl
    | none =>
      cases osucc with
      | true => rfl
      | false => rfl

/-- The component state while submitting from the details step with a
one-item cart. -/
def stDetails : CheckoutState :=
  { cart := [snapItemOld], checkoutStep := .details, orderNumber := none, submitting := true }

/-- Witness for C1: a concrete `ONLINE` submission whose two calls both
succeed redirects to the authorization URL and keeps the cart. -/
theorem handlePlaceOrder_success_paths_witness :
    ((⟨true, some ⟨"ORD-1"⟩⟩ : ApiResponse OrderData).success = true)
    ∧ ((⟨true, some ⟨"ORD-1"⟩⟩ : ApiResponse OrderData).data = some ⟨"ORD-1"⟩)
    ∧ ((handlePlaceOrder true stDetails (some .ONLINE) "shopper@example.com"
          (.ok ⟨true, some ⟨"ORD-1"⟩⟩)
          (.ok ⟨true, some ⟨"https://checkout.paystack.example/auth"⟩⟩)).redirect
        = some "https://checkout.paystack.example/auth"
      ∧ (handlePlaceOrder true stDetails (some .ONLINE) "shopper@example.com"
          (.ok ⟨true, some ⟨"ORD-1"⟩⟩)
          (.ok ⟨true, some ⟨"https://checkout.paystack.example/auth"⟩⟩)).state.cart
        = stDetails.cart) := by
  refine ⟨rfl, rfl, ?_⟩
  have h :=
    (handlePlaceOrder_success_paths stDetails (some .ONLINE) "shopper@example.com"
        ⟨true, some ⟨"ORD-1"⟩⟩ ⟨"ORD-1"⟩
        (.ok ⟨true, some ⟨"https://checkout.paystack.example/auth"⟩⟩) rfl rfl).1
      ⟨true, some ⟨"https://checkout.paystack.example/auth"⟩⟩
      ⟨"https://checkout.paystack.example/auth"⟩
      rfl (by decide) rfl rfl rfl
  exact ⟨h.1, h.2.1⟩

/-- Witness for C2: a concrete failed order response leaves the details
step, cart and everything but `submitting` untouched. -/
theorem handlePlaceOrder_failure_leaves_state_witness :
    (¬ (((⟨false, none⟩ : ApiResponse OrderData).success = true)
        ∧ ((⟨false, none⟩ : ApiResponse OrderData).data.isSome = true)))
    ∧ handlePlaceOrder true stDetails (some .CASH) "shopper@example.com"
        (.ok ⟨false, none⟩) (.ok ⟨true, none⟩)
      = { state := { stDetails with submitting := false }, redirect := none } :=
  ⟨by decide,
    (handlePlaceOrder_failure_leaves_state stDetails (some .CASH) "shopper@example.com"
        (.ok ⟨true, none⟩)).2 ⟨false, none⟩ (by decide)⟩

/-- C4 (code evaluated at the failing input): the payment-callback
effect keeps no record of processed `(order, reference)` pairs, so two
runs with `?reference=ref_123&order=ORD-1` on store `mystore` issue the
verification call twice — the recovery step is not idempotent. -/
theorem paymentCallback_double_processes :
    paymentCallbackRuns 1 callbackParams (some "mystore")
        = [⟨"mystore", "ORD-1", "ref_123"⟩]
    ∧ paymentCallbackRuns 2 callbackParams (some "mystore")
        = [⟨"mystore", "ORD-1", "ref_123"⟩, ⟨"mystore", "ORD-1", "ref_123"⟩]
    ∧ ¬ (paymentCallbackRuns 2 callbackParams (some "mystore")).length ≤ 1 := by
  refine ⟨by decide, by decide, by decide⟩

/-- The line item persisted in the C5 counterexample. -/
def persistItem : CartItem := ⟨"prod-p", ⟨"prod-p", "Persisted", 1000, false, 0⟩, 1⟩

/-- A settled provider state for store `test-store`: empty cart, storage
in sync, no effect pending. -/
def persistState0 : ProviderState :=
  { cart := []
    storage := fun k => if k = "cart_test-store" then some (serializeCart []) else none
    effectPending := false }

/-- Counterexample to C5 as stated: immediately after `addToCart`
mutates the React state — before the `useEffect` persistence effect has
run — localStorage still holds the serialization of the old cart, so the
write is not synchronous within the mutation. -/
theorem cart_persist_not_synchronous_cex :
    (mutate persistState0 (.add persistItem)).cart = [persistItem]
    ∧ (mutate persistState0 (.add persistItem)).storage (storageKey (some "test-store"))
        = some (serializeCart [])
    ∧ serializeCart [] ≠ serializeCart [persistItem] := by
  refine ⟨rfl, rfl, by decide⟩

/-- C5 as amended: a cart mutation by itself never writes to storage —
persistence is deferred to the `useEffect` — and once that pending
effect runs, the storage entry under the cart key equals the
serialization of the full current cart contents. -/
theorem cart_persist_after_effect (st : ProviderState) (m : CartMutation) (key : String) :
    (mutate st m).storage = st.storage
    ∧ (flushPersistEffect key (mutate st m)).storage key
        = some (serializeCart (applyMutation m st.cart)) := by
  constructor
  · rfl
  · simp [flushPersistEffect, mutate]

/-- Counterexample to C8 as stated: the stored string `null` is corrupt
cart content, yet it parses, so the initializer adopts the parsed JSON
null as the cart state instead of an empty line-item list. -/
theorem cartInit_parsed_garbage_cex :
    cartInit (.value "null") jsonParseOnLiterals = Json.null
    ∧ Json.null ≠ Json.arr [] := by
  constructor
  · rfl
  · intro h
    exact Json.noConfusion h

/-- C8 as amended: a missing key, an empty stored string, a storage
access failure, or stored content on which `JSON.parse` throws all
degrade to the empty cart; content that parses is adopted verbatim,
whatever JSON value it is. -/
theorem cartInit_degrades_to_empty (parse : String → ParseOutcome) (s : String)
    (hthrow : parse s = .thrown) :
    cartInit .failure parse = .arr []
    ∧ cartInit .missing parse = .arr []
    ∧ cartInit (.value "") parse = .arr []
    ∧ cartInit (.value s) parse = .arr []
    ∧ (∀ t : String, ∀ j : Json, t ≠ "" → parse t = .parsed j →
        cartInit (.value t) parse = j) := by
  refine ⟨rfl, rfl, rfl, ?_, ?_⟩
  · by_cases hs : s = ""
    · simp [cartInit, hs]
    · simp [cartInit, hs, hthrow]
  · intro t j ht hj
    simp [cartInit, ht, hj]

/-- Witness for the amended C8: the stored string `not json` throws in
`JSON.parse` and the initializer returns the empty cart. -/
theorem cartInit_degrades_to_empty_witness :
    jsonParseOnLiterals "not json" = .thrown
    ∧ cartInit (.value "not json") jsonParseOnLiterals = .arr [] :=
  ⟨rfl, (cartInit_degrades_to_empty jsonParseOnLiterals "not json" rfl).2.2.2.1⟩

/-- Counterexample to C9 as stated: on the details step with a non-empty
cart, a payment method selected and `submitting` false, the primary
button is enabled even though the name field (empty, shorter than two
characters) is invalid — field validity does not feed the `disabled`
expression. -/
theorem placeOrder_disabled_ignores_validity_cex :
    primaryButtonDisabled .details 1 (some .CASH) false = false
    ∧ nameValid "" = false
    ∧ phoneValid "" = false := by
  refine ⟨rfl, by decide, by decide⟩

/-- C9 as amended: the place-order button is disabled exactly when the
cart step shows an empty cart, or the details step has no payment method
selected, or a submission is in flight; invalid name/phone/email do not
disable the button (the form resolver instead blocks the submit
handler). -/
theorem primaryButtonDisabled_iff (step : CheckoutStep) (cartLength : ℕ)
    (pm : Option PaymentMethod) (submitting : Bool) :
    primaryButtonDisabled step cartLength pm submitting = true ↔
      ((step = .cart ∧ cartLength = 0) ∨ (step = .details ∧ pm = none) ∨
        submitting = true) := by
  simp [primaryButtonDisabled, Option.isNone_iff_eq_none, or_assoc]

end Theorems
